import Mathlib

/-!
# Verification of the portage remap core against its specification

Shallow embedding of the portage remap engine over exact rational
arithmetic.  The geometric intersector is translated from
`src/portage/intersect/intersect_polys_r2d.h`; the remap driver is
translated from `src/portage/driver/uberdriver.h`.  The external r2d
clipping library and the wonton coordinate-system helpers are not part
of the repository sources; they are modelled from the specification
(each such definition carries a doc comment saying so).

Polygons are ordered vertex loops over `ℚ × ℚ`; machine floating point
is replaced by exact rationals, so every statement about computed
moments is exact.
-/

namespace Portage

/-- A point in the plane (wonton `Point<2>`), with exact rational
coordinates. -/
abbrev Pt : Type := ℚ × ℚ

/-- Modelled from the spec: r2d's orientation primitive, the signed
area of the triangle `(pa, pb, pc)` (positive for counter-clockwise
order).  The fan-triangle validation of §4.2 step 2 is expressed with
this test. -/
def r2d_orient (pa pb pc : Pt) : ℚ :=
  ((pb.1 - pa.1) * (pc.2 - pa.2) - (pb.2 - pa.2) * (pc.1 - pa.1)) / 2

/-- Modelled from the spec: a clip half-plane (r2d `r2d_plane`), the
region `n ⬝ x + d ≥ 0`.  Normal vectors are not normalized because
normalization does not change the clipped region and is not expressible
over `ℚ`. -/
structure HalfPlane where
  n : Pt
  d : ℚ
deriving DecidableEq

/-- Signed distance of a point from a half-plane boundary (up to the
positive factor given by the unnormalized normal). -/
def HalfPlane.eval (h : HalfPlane) (p : Pt) : ℚ :=
  h.n.1 * p.1 + h.n.2 * p.2 + h.d

/-- The list of directed edges `(v_i, v_{(i+1) mod n})` of a vertex
loop; this is the iteration pattern of every loop over polygon edges in
`intersect_polys_r2d`. -/
def cyclePairs (P : List Pt) : List (Pt × Pt) :=
  (List.range P.length).map (fun i =>
    (P.getD i (0, 0), P.getD ((i + 1) % P.length) (0, 0)))

/-- Modelled from the spec: r2d `r2d_poly_faces_from_verts` — derive the
bounding half-plane of every edge of a vertex loop, with the normal
pointing to the interior for a counter-clockwise loop (§4.2: "derive its
bounding half-space (face) planes directly from its vertex loop"). -/
def facesFromVerts (P : List Pt) : List HalfPlane :=
  (cyclePairs P).map (fun e =>
    let n : Pt := (e.1.2 - e.2.2, e.2.1 - e.1.1)
    ⟨n, -(n.1 * e.1.1 + n.2 * e.1.2)⟩)

/-- One edge's contribution to a Sutherland–Hodgman clip against a
half-plane: keep the inside endpoint, and insert the crossing point when
the edge crosses the boundary. -/
def clipEdgeContrib (h : HalfPlane) (e : Pt × Pt) : List Pt :=
  let dc := h.eval e.1
  let dn := h.eval e.2
  let inter : Pt :=
    let t := dc / (dc - dn)
    (e.1.1 + t * (e.2.1 - e.1.1), e.1.2 + t * (e.2.2 - e.1.2))
  if 0 ≤ dc then
    (if 0 ≤ dn then [e.1] else [e.1, inter])
  else
    (if 0 ≤ dn then [inter] else [])

/-- Clip a vertex loop against one half-plane (Sutherland–Hodgman). -/
def clipHalfPlane (h : HalfPlane) (P : List Pt) : List Pt :=
  (cyclePairs P).flatMap (clipEdgeContrib h)

/-- Modelled from the spec: r2d `r2d_clip` — clip a polygon against a
list of half-planes, keeping the part on the non-negative side of every
plane (§4.2: "clip the source region against all of them in one
pass"). -/
def r2d_clip (P : List Pt) (faces : List HalfPlane) : List Pt :=
  faces.foldl (fun acc h => clipHalfPlane h acc) P

/-- Cross product term of one directed edge, the integrand of the
Green-formula moment sums. -/
def cross2 (e : Pt × Pt) : ℚ := e.1.1 * e.2.2 - e.2.1 * e.1.2

/-- Zeroth moment (signed area) of a vertex loop. -/
def poly_m0 (P : List Pt) : ℚ :=
  ((cyclePairs P).map cross2).sum / 2

/-- First moment in x (`∫ x dA`) of a vertex loop. -/
def poly_m1x (P : List Pt) : ℚ :=
  ((cyclePairs P).map (fun e => (e.1.1 + e.2.1) * cross2 e)).sum / 6

/-- First moment in y (`∫ y dA`) of a vertex loop. -/
def poly_m1y (P : List Pt) : ℚ :=
  ((cyclePairs P).map (fun e => (e.1.2 + e.2.2) * cross2 e)).sum / 6

/-- Second moment `∫ x² dA` of a vertex loop. -/
def poly_m2xx (P : List Pt) : ℚ :=
  ((cyclePairs P).map (fun e =>
    (e.1.1 * e.1.1 + e.1.1 * e.2.1 + e.2.1 * e.2.1) * cross2 e)).sum / 12

/-- Second moment `∫ x·y dA` of a vertex loop. -/
def poly_m2xy (P : List Pt) : ℚ :=
  ((cyclePairs P).map (fun e =>
    (2 * e.1.1 * e.1.2 + e.1.1 * e.2.2 + e.2.1 * e.1.2
      + 2 * e.2.1 * e.2.2) * cross2 e)).sum / 24

/-- Second moment `∫ y² dA` of a vertex loop. -/
def poly_m2yy (P : List Pt) : ℚ :=
  ((cyclePairs P).map (fun e =>
    (e.1.2 * e.1.2 + e.1.2 * e.2.2 + e.2.2 * e.2.2) * cross2 e)).sum / 12

/-- Modelled from the spec: r2d `r2d_reduce` — the exact moments of a
polygon up to the requested order, in r2d's ordering
`[1, x, y, x², xy, y²]` (§3: "Moment vector = [zeroth moment, first
moments, optionally second moments ...]"). -/
def r2d_reduce (P : List Pt) (order : ℕ) : List ℚ :=
  if order = 2 then
    [poly_m0 P, poly_m1x P, poly_m1y P, poly_m2xx P, poly_m2xy P, poly_m2yy P]
  else
    [poly_m0 P, poly_m1x P, poly_m1y P]

/-- wonton `CoordSysType`, restricted to the two values
`intersect_polys_r2d` distinguishes. -/
inductive CoordSysType where
  | Cartesian
  | CylindricalAxisymmetric
deriving DecidableEq

/-- Modelled from the spec: portage `NumericTolerances_t`
(`portage/support/portage.h` is not among the sources) — the numerical
tolerance configuration of §9.  `intersect_polys_r2d` receives it as an
argument but never reads it. -/
structure NumericTolerances_t where
  min_absolute_distance : ℚ
  min_absolute_volume : ℚ
  relative_conservation_eps : ℚ
  max_num_fixup_iter : ℕ
deriving DecidableEq

/-- Modelled from the spec: the process-wide tolerance default retained
as "one documented constant" (§9). -/
def DEFAULT_NUMERIC_TOLERANCES : NumericTolerances_t :=
  ⟨0, 0, 1 / 100000000, 5⟩

/-- Modelled from the spec: wonton
`CylindricalAxisymmetricCoordinates::shift_moments_list<2>` — "raw
planar moments are shifted into revolved-volume moments as a
post-processing step (only zeroth/first planar moments are needed, but
second-order raw moments must be computed to support the shift)"
(§4.2).  The revolved moments about the axis are proportional to the
first/second raw planar moments (volume element `2·π·r`); the
transcendental constant factor `2·π` is irrational, hence omitted from
this rational model — no claim below depends on the constant factor. -/
def shift_moments_list (m : List ℚ) : List ℚ :=
  [m.getD 1 0, m.getD 3 0, m.getD 4 0]

/-- Number of moments the source allocates
(`R2D_NUM_MOMENTS(poly_order)` with `poly_order = 2` for cylindrical
axisymmetric coordinates and `1` otherwise;
intersect_polys_r2d.h:38-43). -/
def numMomentsFor (coord_sys : CoordSysType) : ℕ :=
  if coord_sys = CoordSysType.CylindricalAxisymmetric then 6 else 3

/-- The area-weighted centroid of the fan triangulation from vertex 0
(intersect_polys_r2d.h:96-109): the loop over `i ∈ [1, n)` sums the
signed areas and area-weighted centroids of the triangles
`(v₀, vᵢ, v_{(i+1) mod n})`. -/
def fanCentroid (T : List Pt) : Pt :=
  let tris := (List.range' 1 (T.length - 1)).map (fun i =>
    (T.getD 0 (0, 0), T.getD i (0, 0), T.getD ((i + 1) % T.length) (0, 0)))
  let area_sum := (tris.map (fun t => r2d_orient t.1 t.2.1 t.2.2)).sum
  let cx := (tris.map (fun t =>
    r2d_orient t.1 t.2.1 t.2.2 * ((t.1.1 + t.2.1.1 + t.2.2.1) / 3))).sum
  let cy := (tris.map (fun t =>
    r2d_orient t.1 t.2.1 t.2.2 * ((t.1.2 + t.2.1.2 + t.2.2.2) / 3))).sum
  (cx / area_sum, cy / area_sum)

/-- The interior-point validation of intersect_polys_r2d.h:111-113 and
147-149: every fan triangle `(c, vᵢ, v_{(i+1) mod n})` must have
non-negative signed orientation. -/
def centerPointOk (c : Pt) (T : List Pt) : Bool :=
  (cyclePairs T).all (fun e => decide (0 ≤ r2d_orient c e.1 e.2))

/-- The polygon's feasible set (intersect_polys_r2d.h:122-127): the
target polygon self-clipped against its own face planes. -/
def feasiblePoly (T : List Pt) : List Pt :=
  r2d_clip T (facesFromVerts T)

/-- The fallback interior point of intersect_polys_r2d.h:133-140: the
centroid of the feasible set, computed from that set's own zeroth and
first moments.  (`/` on `ℚ` is total with `x / 0 = 0`; the source's
floating point produces non-finite values at the same degenerate
inputs, and in neither case is an error raised there — the
`std::runtime_error` at line 131 is constructed but not thrown.) -/
def feasibleCentroid (T : List Pt) (order : ℕ) : Pt :=
  let fm := r2d_reduce (feasiblePoly T) order
  (fm.getD 1 0 / fm.getD 0 0, fm.getD 2 0 / fm.getD 0 0)

/-- Translation of `Portage::intersect_polys_r2d`
(intersect_polys_r2d.h:30-183).

* lines 38-43: moment order 2 (6 moments) for cylindrical axisymmetric
  coordinates, order 1 (3 moments) otherwise;
* lines 47-50: a zero-vertex input short-circuits to the zero vector;
* lines 73-88 (convex target): clip the source against the target's
  faces, reduce to moments, and for axisymmetric coordinates apply the
  moment shift;
* lines 90-179 (non-convex target): try the area-weighted fan centroid;
  if its validation fails, fall back to the feasible-set centroid.  The
  source re-validates the fallback point (lines 147-149) but the flag
  `center_point_ok` is never reset to true and the `std::runtime_error`
  objects at lines 131 and 154 are constructed WITHOUT `throw`, so the
  re-validation cannot alter control flow: execution always proceeds to
  fan-triangulate from the fallback point.  The fan loop (lines
  157-179) clips the source against each triangle
  `(cen, vᵢ, v_{(i+1) mod n})` and accumulates only the first three
  moments (`for (int j = 0; j < 3; ++j)` at line 177), with no moment
  shift in this branch.

The `num_tols` argument is faithfully accepted and, as in the source,
never read. -/
def intersect_polys_r2d (source_poly target_poly : List Pt)
    (num_tols : NumericTolerances_t)
    (trg_convex : Bool := true)
    (coord_sys : CoordSysType := CoordSysType.Cartesian) : List ℚ :=
  let poly_order : ℕ :=
    if coord_sys = CoordSysType.CylindricalAxisymmetric then 2 else 1
  let nmoments : ℕ := if poly_order = 2 then 6 else 3
  if source_poly.length = 0 ∨ target_poly.length = 0 then
    List.replicate nmoments 0
  else if trg_convex then
    let m := r2d_reduce (r2d_clip source_poly (facesFromVerts target_poly)) poly_order
    if coord_sys = CoordSysType.CylindricalAxisymmetric then
      shift_moments_list m
    else m
  else
    let cen0 := fanCentroid target_poly
    let cen :=
      if centerPointOk cen0 target_poly then cen0
      else feasibleCentroid target_poly poly_order
    (cyclePairs target_poly).foldl (fun acc e =>
      let om := r2d_reduce (r2d_clip source_poly (facesFromVerts [cen, e.1, e.2])) poly_order
      (List.range nmoments).map (fun j =>
        if j < 3 then acc.getD j 0 + om.getD j 0 else acc.getD j 0))
      (List.replicate nmoments 0)

/-- The accumulation the fan path would need for the axisymmetric
moment shift: the same fan loop as `intersect_polys_r2d`'s non-convex
branch, but accumulating all six raw planar moments of each clipped
piece instead of only the first three. -/
def fanRawMomentsAxisym (source_poly target_poly : List Pt) : List ℚ :=
  let cen0 := fanCentroid target_poly
  let cen :=
    if centerPointOk cen0 target_poly then cen0
    else feasibleCentroid target_poly 2
  (cyclePairs target_poly).foldl (fun acc e =>
    let om := r2d_reduce (r2d_clip source_poly (facesFromVerts [cen, e.1, e.2])) 2
    (List.range 6).map (fun j => acc.getD j 0 + om.getD j 0))
    (List.replicate 6 0)

/-- The unit square, counter-clockwise. -/
def unitSquare : List Pt := [(0, 0), (1, 0), (1, 1), (0, 1)]

/-- A counter-clockwise, simple, non-convex "bracket" octagon whose
kernel is empty: no point whatsoever sees every edge with non-negative
orientation, so both interior-point candidates of the non-convex path
fail validation. -/
def bracketPoly : List Pt :=
  [(0, 0), (4, 0), (4, 1), (1, 1), (1, 2), (4, 2), (4, 3), (0, 3)]

/-! ## The remap driver (`src/portage/driver/uberdriver.h`)

The `UberDriver` class template is embedded as an explicit state record
plus state-transition functions.  Deeply templated mesh/state wrapper
classes become explicit adapter records, entity kind becomes a closed
enum, and the `Interpolate` functor template parameter becomes a
function argument, following the spec's own reimplementation guidance
(§9).  The `CoreDriver` internals (`portage/driver/coredriver.h` is not
among the sources) are modelled from the spec where the driver calls
into them. -/

/-- wonton `Entity_kind`, restricted to the two kinds the driver
handles. -/
inductive Entity_kind where
  | CELL
  | NODE
deriving DecidableEq

/-- portage `Field_type`: single-material mesh field or multi-material
field. -/
inductive Field_type where
  | MESH_FIELD
  | MULTIMATERIAL_FIELD
deriving DecidableEq

/-- portage `Weights_t`: a contributing source entity id together with
its moment vector (`weights[0]` is the zeroth moment). -/
structure Weights_t where
  entityID : ℕ
  weights : List ℚ
deriving DecidableEq

/-- Modelled from the spec: the partial-fixup policy enum of §4.5
(declared in `portage/support/portage.h`, not among the sources). -/
inductive PartialFixupKind where
  | ConstantFix
  | LocallyConservative
  | ShiftedConservative
deriving DecidableEq

/-- Modelled from the spec: the empty-fixup policy enum of §4.5
(declared in `portage/support/portage.h`, not among the sources). -/
inductive EmptyFixupKind where
  | LeaveEmpty
  | ExtrapolateFix
deriving DecidableEq

/-- The source state adapter (spec §6): field lookup by name, the
entity kind and field type of each variable, and the field arrays. -/
structure SourceStateAdapter where
  get_entity : String → Entity_kind
  field_type : Entity_kind → String → Field_type
  values : String → List ℚ
  names : List String

/-- The error taxonomy entry raised by the driver (spec §7
ConfigurationError; the source raises `std::runtime_error` with a
descriptive message). -/
inductive ConfigurationError where
  | varNotRegistered (name : String)
deriving DecidableEq

/-- The interpolation functor interface: given the source field array
and the weight list of one target entity, produce the reconstructed
value.  This stands for the `Interpolate` class template parameter of
`UberDriver::interpolate*`; for order 2 the gradient field it uses is a
function of the source values only, so it is absorbed into the
functor. -/
abbrev InterpolateFn := List ℚ → List Weights_t → ℚ

/-- Modelled from the spec: first-order interpolation (§4.4): "value =
Σ(weight_i.value × weight_i.zeroth_moment) / Σ(weight_i.zeroth_moment)".
Division on `ℚ` is total with `x / 0 = 0`. -/
def Interpolate_1stOrder (svals : List ℚ) (ws : List Weights_t) : ℚ :=
  ((ws.map (fun w => svals.getD w.entityID 0 * w.weights.getD 0 0)).sum) /
    ((ws.map (fun w => w.weights.getD 0 0)).sum)

/-- Sum of the zeroth moments of a weight list — the covered fraction
of a target control volume (spec §3 Weight invariant). -/
def m0sum (ws : List Weights_t) : ℚ :=
  (ws.map (fun w => w.weights.getD 0 0)).sum

/-- `Σ value×volume` over paired entity lists — the conserved integral
quantity of spec §8. -/
def totalIntegral (vals vols : List ℚ) : ℚ :=
  ((vals.zip vols).map (fun p => p.1 * p.2)).sum

/-- Modelled from the spec: mismatch detection (§4.5): "for each target
entity, compare Σ(weight_i.zeroth_moment) against its control-volume
measure ...; a relative discrepancy above tolerance marks the kind as
mismatched". -/
def check_mismatch (weights : List (List Weights_t)) (vols : List ℚ)
    (tol : ℚ) : Bool :=
  (List.range vols.length).any (fun t =>
    decide (tol * |vols.getD t 0| < |m0sum (weights.getD t []) - vols.getD t 0|))

/-- Clamp a value into `[lb, ub]`. -/
def clampQ (lb ub x : ℚ) : ℚ := max lb (min ub x)

/-- Modelled from the spec: `CoreDriver::fix_mismatch` (§4.5) — the
iterative per-category repair lives in `coredriver.h`, which is not
among the sources.  The aspects the claims depend on are that repair is
a deterministic function of the freshly interpolated values and the
call's arguments (never of the pre-call target state) and that "bounds
are enforced exactly"; it is modelled as the bound clamp. -/
def fix_mismatch_values (vals : List ℚ) (lb ub : ℚ)
    (conservation_tol : ℚ) (max_fixup_iter : ℕ)
    (pfix : PartialFixupKind) (efix : EmptyFixupKind) : List ℚ :=
  vals.map (clampQ lb ub)

/-- The driver state: the bookkeeping members of `UberDriver`
(uberdriver.h:782-852) together with the consumed adapters.  The
build-time `PORTAGE_HAS_TANGRAM` gate is modelled as the capability
flag `has_tangram`, following spec §9 ("reimplement as
nullable/optional capability references").  `has_mismatch_flag` is the
mismatch flag cached inside the core driver by `check_mismatch` and
read back by `has_mismatch()`. -/
structure UberDriver where
  source_state : SourceStateAdapter
  source_vars_to_remap : List String
  remap_kind : Entity_kind → Bool
  have_multi_material_fields : Bool
  do_check_mismatch : Bool
  num_tols : NumericTolerances_t
  search_completed : Entity_kind → Bool
  mesh_intersection_completed : Entity_kind → Bool
  mat_intersection_completed : Bool
  has_mismatch_flag : Entity_kind → Bool
  source_weights : Entity_kind → List (List Weights_t)
  source_weights_by_mat : List (List (List Weights_t))
  target_volumes : Entity_kind → List ℚ
  target_fields : String → Option (List ℚ)
  target_mat_fields : String → Option (List (List ℚ))
  has_tangram : Bool

/-- Pointwise update of an entity-kind-indexed map. -/
def updateKind {α : Type} (f : Entity_kind → α) (k : Entity_kind) (v : α) :
    Entity_kind → α :=
  fun x => if x = k then v else f x

/-- Write one target mesh field (the single-writer field write of
spec §5). -/
def UberDriver.withTargetField (d : UberDriver) (name : String)
    (vals : List ℚ) : UberDriver :=
  { d with target_fields :=
      fun v => if v = name then some vals else d.target_fields v }

/-- Write one target multi-material field. -/
def UberDriver.withTargetMatField (d : UberDriver) (name : String)
    (vals : List (List ℚ)) : UberDriver :=
  { d with target_mat_fields :=
      fun v => if v = name then some vals else d.target_mat_fields v }

/-- Translation of `UberDriver::intersect_meshes` (uberdriver.h:367-396).
The geometric production of the weight lists happens inside the core
driver (`coredriver.h`, not among the sources), so the weights arrive
as an argument; the driver-level logic is: cache the weights, run the
mismatch check iff `do_check_mismatch_` is set (lines 381, 390) —
caching the per-kind flag — and mark intersection completed for the
kind (lines 382, 391). -/
def UberDriver.intersect_meshes (d : UberDriver) (k : Entity_kind)
    (weights : List (List Weights_t)) : UberDriver :=
  { d with
    source_weights := updateKind d.source_weights k weights
    has_mismatch_flag :=
      if d.do_check_mismatch then
        updateKind d.has_mismatch_flag k
          (check_mismatch weights (d.target_volumes k)
            d.num_tols.relative_conservation_eps)
      else d.has_mismatch_flag
    mesh_intersection_completed :=
      updateKind d.mesh_intersection_completed k true }

/-- Translation of `UberDriver::interpolate_mesh_var`
(uberdriver.h:622-696).

* line 638: `assert(source_state_.get_entity(srcvarname) == ONWHAT)` is
  an `assert` macro — disabled under NDEBUG and an abort (not a scoped
  error) otherwise; release behavior is modelled, i.e. no check;
* lines 639-641: an unregistered variable raises the configuration
  error, before anything is written;
* lines 651-664: per-target interpolation through the `Interpolate`
  functor (the gradient computed for order 2 depends only on source
  data and is absorbed into `interpFn`), writing the target field;
* lines 666-671 / 687-692: `fix_mismatch` runs iff
  `do_check_mismatch_ && driver->has_mismatch()` — the cached flag, no
  recomputation.

Returns the updated driver and whether `fix_mismatch` was invoked. -/
def UberDriver.interpolate_mesh_var (d : UberDriver) (k : Entity_kind)
    (interpFn : InterpolateFn) (srcvarname trgvarname : String)
    (sources_and_weights_in : List (List Weights_t))
    (lower_bound upper_bound : ℚ)
    (pfix : PartialFixupKind) (efix : EmptyFixupKind)
    (conservation_tol : ℚ) (max_fixup_iter : ℕ) :
    Except ConfigurationError (UberDriver × Bool) :=
  if srcvarname ∉ d.source_vars_to_remap then
    Except.error (ConfigurationError.varNotRegistered srcvarname)
  else
    let svals := d.source_state.values srcvarname
    let raw := sources_and_weights_in.map (fun ws => interpFn svals ws)
    let doFix := d.do_check_mismatch && d.has_mismatch_flag k
    let final :=
      if doFix then
        fix_mismatch_values raw lower_bound upper_bound
          conservation_tol max_fixup_iter pfix efix
      else raw
    Except.ok (d.withTargetField trgvarname final, doFix)

/-- Translation of `UberDriver::interpolate_mat_var`
(uberdriver.h:731-780).  The `lower_bound`, `upper_bound`,
`partial`/`empty` fixup type, `conservation_tol` and `max_fixup_iter`
parameters are accepted and ignored, exactly as the source marks them
`/* unused */` (lines 738-744).  Without the interface-reconstruction
capability the whole body after the registration check is compiled out
(`#ifdef PORTAGE_HAS_TANGRAM`), so the call is a silent no-op.  The
core per-material interpolation is modelled from the spec (§4.3/§4.4):
one value per (material, target cell) through the interpolation
functor, with no bound clamping and no mismatch repair on this path. -/
def UberDriver.interpolate_mat_var (d : UberDriver)
    (interpFn : InterpolateFn) (srcvarname trgvarname : String)
    (sources_and_weights_by_mat_in : List (List (List Weights_t)))
    (lower_bound upper_bound : ℚ)
    (pfix : PartialFixupKind) (efix : EmptyFixupKind)
    (conservation_tol : ℚ) (max_fixup_iter : ℕ) :
    Except ConfigurationError UberDriver :=
  if srcvarname ∉ d.source_vars_to_remap then
    Except.error (ConfigurationError.varNotRegistered srcvarname)
  else if d.has_tangram then
    let svals := d.source_state.values srcvarname
    let res := sources_and_weights_by_mat_in.map (fun matws =>
      matws.map (fun ws => interpFn svals ws))
    Except.ok (d.withTargetMatField trgvarname res)
  else
    Except.ok d

/-- Translation of `UberDriver::interpolate` (uberdriver.h:536-580).

* lines 551-552: `assert(source_state_.get_entity(srcvarname) ==
  ONWHAT)` and `assert(mesh_intersection_completed_[ONWHAT])` are
  `assert` macros — disabled under NDEBUG, an abort otherwise; the
  release behavior (no check, execution proceeds) is modelled;
* lines 554-556: an unregistered variable raises the configuration
  error;
* lines 558-568: a multi-material variable dispatches to
  `interpolate_mat_var` only inside `#ifdef PORTAGE_HAS_TANGRAM`;
  without the capability the branch body is empty and the call returns
  silently, having written nothing;
* lines 570-578: otherwise dispatch to `interpolate_mesh_var` with the
  cached weights for the kind.

Returns the updated driver and whether `fix_mismatch` was invoked. -/
def UberDriver.interpolate (d : UberDriver) (k : Entity_kind)
    (interpFn : InterpolateFn) (srcvarname trgvarname : String)
    (lower_bound upper_bound : ℚ)
    (pfix : PartialFixupKind) (efix : EmptyFixupKind)
    (conservation_tol : ℚ) (max_fixup_iter : ℕ) :
    Except ConfigurationError (UberDriver × Bool) :=
  if srcvarname ∉ d.source_vars_to_remap then
    Except.error (ConfigurationError.varNotRegistered srcvarname)
  else if d.source_state.field_type k srcvarname = Field_type.MULTIMATERIAL_FIELD then
    if d.has_tangram then
      match d.interpolate_mat_var interpFn srcvarname trgvarname
          d.source_weights_by_mat lower_bound upper_bound pfix efix
          conservation_tol max_fixup_iter with
      | Except.ok d2 => Except.ok (d2, false)
      | Except.error e => Except.error e
    else
      Except.ok (d, false)
  else
    d.interpolate_mesh_var k interpFn srcvarname trgvarname
      (d.source_weights k) lower_bound upper_bound pfix efix
      conservation_tol max_fixup_iter

/-- Whether an `Except` result is a success. -/
def exceptIsOk {ε α : Type} : Except ε α → Bool
  | Except.ok _ => true
  | Except.error _ => false

/-! ### Concrete driver instances for witnesses and counterexamples -/

/-- A concrete source state: a single-material cell variable `f` with
the constant value 3, and a multi-material cell variable `mmvar`. -/
def wSourceState : SourceStateAdapter where
  get_entity := fun _ => Entity_kind.CELL
  field_type := fun _ name =>
    if name = "mmvar" then Field_type.MULTIMATERIAL_FIELD
    else Field_type.MESH_FIELD
  values := fun _ => [3, 3]
  names := ["f", "mmvar"]

/-- Concrete weights: one target cell fully covered by two source cells
of volume 1/2 each. -/
def wWeights : List (List Weights_t) :=
  [[⟨0, [1/2, 1/8, 1/4]⟩, ⟨1, [1/2, 3/8, 1/4]⟩]]

/-- A concrete driver state: both variables registered, intersection
NOT yet completed for any kind, mismatch checking off, no
interface-reconstruction capability. -/
def wDriver : UberDriver where
  source_state := wSourceState
  source_vars_to_remap := ["f", "mmvar"]
  remap_kind := fun _ => true
  have_multi_material_fields := true
  do_check_mismatch := false
  num_tols := DEFAULT_NUMERIC_TOLERANCES
  search_completed := fun _ => false
  mesh_intersection_completed := fun _ => false
  mat_intersection_completed := false
  has_mismatch_flag := fun _ => false
  source_weights := fun _ => wWeights
  source_weights_by_mat := [wWeights]
  target_volumes := fun _ => [1]
  target_fields := fun _ => none
  target_mat_fields := fun _ => none
  has_tangram := false

/-- The result state of the concrete first-order interpolation run used
by several witnesses: `wDriver` with the value of variable `f`
interpolated into target field `g`. -/
def wRunState : UberDriver :=
  wDriver.withTargetField "g"
    (wWeights.map (fun ws =>
      Interpolate_1stOrder (wDriver.source_state.values "f") ws))

/-! ## Theorems -/

theorem withTargetField_idem (d : UberDriver) (v : String) (x : List ℚ) :
    (d.withTargetField v x).withTargetField v x = d.withTargetField v x := by
  unfold UberDriver.withTargetField
  congr 1
  funext w
  by_cases h : w = v <;> simp [h]

theorem withTargetField_source_state (d : UberDriver) (v : String) (x : List ℚ) :
    (d.withTargetField v x).source_state = d.source_state := rfl

theorem withTargetField_do_check (d : UberDriver) (v : String) (x : List ℚ) :
    (d.withTargetField v x).do_check_mismatch = d.do_check_mismatch := rfl

theorem withTargetField_flag (d : UberDriver) (v : String) (x : List ℚ) :
    (d.withTargetField v x).has_mismatch_flag = d.has_mismatch_flag := rfl

theorem withTargetField_vars (d : UberDriver) (v : String) (x : List ℚ) :
    (d.withTargetField v x).source_vars_to_remap = d.source_vars_to_remap := rfl

theorem interpolate_mesh_var_eq (d : UberDriver) (k : Entity_kind)
    (fn : InterpolateFn) (sv tv : String) (w : List (List Weights_t))
    (lb ub : ℚ) (pf : PartialFixupKind) (ef : EmptyFixupKind)
    (ct : ℚ) (mi : ℕ) (h : sv ∈ d.source_vars_to_remap) :
    d.interpolate_mesh_var k fn sv tv w lb ub pf ef ct mi =
      Except.ok (d.withTargetField tv
        (if d.do_check_mismatch && d.has_mismatch_flag k then
          fix_mismatch_values
            (w.map (fun ws => fn (d.source_state.values sv) ws)) lb ub ct mi pf ef
        else w.map (fun ws => fn (d.source_state.values sv) ws)),
        d.do_check_mismatch && d.has_mismatch_flag k) := by
  unfold UberDriver.interpolate_mesh_var
  rw [if_neg (not_not_intro h)]

/-- C5: for every pair of input polygons where at least one polygon has
zero vertices, `intersect_polys_r2d` returns an all-zero moment vector
of the length implied by the requested coordinate system (6 for
cylindrical axisymmetric, 3 otherwise) and raises no error. -/
theorem C5_degenerate_input (src tgt : List Pt) (tols : NumericTolerances_t)
    (cv : Bool) (cs : CoordSysType)
    (h : src.length = 0 ∨ tgt.length = 0) :
    intersect_polys_r2d src tgt tols cv cs =
      List.replicate (numMomentsFor cs) 0 := by
  unfold intersect_polys_r2d
  rw [if_pos h]
  cases cs <;> rfl

theorem C5_degenerate_input_witness :
    intersect_polys_r2d [] unitSquare DEFAULT_NUMERIC_TOLERANCES
      true CoordSysType.Cartesian = List.replicate (numMomentsFor CoordSysType.Cartesian) 0 :=
  C5_degenerate_input [] unitSquare DEFAULT_NUMERIC_TOLERANCES true
    CoordSysType.Cartesian (Or.inl rfl)

/-- C10: the `lower_bound`, `upper_bound`, partial/empty fixup type,
`conservation_tol` and `max_fixup_iter` arguments of
`UberDriver::interpolate_mat_var` have no effect on the result: two
calls differing only in those arguments produce identical target
state (the source marks them `/* unused */`, and no bound clamping or
mismatch repair happens on the multi-material path). -/
theorem C10_mat_var_ignores_fixup_args (d : UberDriver) (fn : InterpolateFn)
    (sv tv : String) (wmat : List (List (List Weights_t)))
    (lb1 ub1 lb2 ub2 : ℚ) (pf1 pf2 : PartialFixupKind)
    (ef1 ef2 : EmptyFixupKind) (ct1 ct2 : ℚ) (mi1 mi2 : ℕ) :
    d.interpolate_mat_var fn sv tv wmat lb1 ub1 pf1 ef1 ct1 mi1 =
      d.interpolate_mat_var fn sv tv wmat lb2 ub2 pf2 ef2 ct2 mi2 := rfl

/-- C3 counterexample: on the concrete driver `wDriver`, the registered
variable `mmvar` is multi-material and the interface-reconstruction
capability is absent, yet `interpolate` succeeds silently with the
driver state unchanged — no ConfigurationError is raised, refuting the
claim as stated. -/
theorem C3_counterexample :
    wDriver.source_state.field_type Entity_kind.CELL "mmvar" =
      Field_type.MULTIMATERIAL_FIELD ∧
    wDriver.has_tangram = false ∧
    wDriver.interpolate Entity_kind.CELL Interpolate_1stOrder "mmvar" "mmvar"
      0 10 PartialFixupKind.ConstantFix EmptyFixupKind.LeaveEmpty (1/100) 5 =
      Except.ok (wDriver, false) :=
  ⟨rfl, rfl, rfl⟩

/-- C3 amended: for every registered multi-material variable, calling
`UberDriver::interpolate` when the interface-reconstruction capability
is unavailable returns silently with the target state unchanged (the
multi-material branch is conditionally compiled out); it does NOT fail
with a ConfigurationError. -/
theorem C3_amended_silent_noop (d : UberDriver) (k : Entity_kind)
    (fn : InterpolateFn) (sv tv : String) (lb ub : ℚ)
    (pf : PartialFixupKind) (ef : EmptyFixupKind) (ct : ℚ) (mi : ℕ)
    (hreg : sv ∈ d.source_vars_to_remap)
    (hmm : d.source_state.field_type k sv = Field_type.MULTIMATERIAL_FIELD)
    (htg : d.has_tangram = false) :
    d.interpolate k fn sv tv lb ub pf ef ct mi = Except.ok (d, false) := by
  unfold UberDriver.interpolate
  rw [if_neg (not_not_intro hreg), if_pos hmm, htg]
  simp

theorem C3_amended_witness :
    wDriver.interpolate Entity_kind.NODE Interpolate_1stOrder "mmvar" "out"
      0 1 PartialFixupKind.LocallyConservative EmptyFixupKind.ExtrapolateFix 1 1 =
      Except.ok (wDriver, false) :=
  C3_amended_silent_noop wDriver Entity_kind.NODE Interpolate_1stOrder
    "mmvar" "out" 0 1 PartialFixupKind.LocallyConservative
    EmptyFixupKind.ExtrapolateFix 1 1 (by decide) rfl rfl

/-- C4 counterexample: on the concrete driver `wDriver`, intersection
has NOT completed for the cell kind, yet `interpolate` on the
registered single-material variable `f` succeeds — the
intersection-completed precondition is guarded only by an `assert`
(disabled in release builds, an abort rather than a scoped error
otherwise), so no ConfigurationError is raised, refuting the claim's
second disjunct. -/
theorem C4_counterexample :
    wDriver.mesh_intersection_completed Entity_kind.CELL = false ∧
    "f" ∈ wDriver.source_vars_to_remap ∧
    exceptIsOk (wDriver.interpolate Entity_kind.CELL Interpolate_1stOrder
      "f" "f" 0 10 PartialFixupKind.ConstantFix EmptyFixupKind.LeaveEmpty
      (1/100) 5) = true :=
  ⟨rfl, by decide, rfl⟩

/-- C4 amended: a call to `UberDriver::interpolate` for a variable that
was never registered in the list of variables to remap fails with a
ConfigurationError before writing anything, leaving all previously
written results intact (the error carries no state change); the
"intersection not yet completed" precondition, by contrast, is only an
`assert` and raises no error in release builds. -/
theorem C4_unregistered_error (d : UberDriver) (k : Entity_kind)
    (fn : InterpolateFn) (sv tv : String) (lb ub : ℚ)
    (pf : PartialFixupKind) (ef : EmptyFixupKind) (ct : ℚ) (mi : ℕ)
    (h : sv ∉ d.source_vars_to_remap) :
    d.interpolate k fn sv tv lb ub pf ef ct mi =
      Except.error (ConfigurationError.varNotRegistered sv) := by
  unfold UberDriver.interpolate
  rw [if_pos h]

theorem C4_unregistered_error_witness :
    wDriver.interpolate Entity_kind.CELL Interpolate_1stOrder "zzz" "zzz"
      0 10 PartialFixupKind.ConstantFix EmptyFixupKind.LeaveEmpty (1/100) 5 =
      Except.error (ConfigurationError.varNotRegistered "zzz") :=
  C4_unregistered_error wDriver Entity_kind.CELL Interpolate_1stOrder
    "zzz" "zzz" 0 10 PartialFixupKind.ConstantFix EmptyFixupKind.LeaveEmpty
    (1/100) 5 (by decide)

/-- C8: `intersect_polys_r2d` is deterministic and side-effect-free —
in particular its result does not depend on the tolerance argument
(which the source accepts but never reads), so any two invocations with
equal polygons, convexity flag and coordinate system return equal
moment vectors; and repeating an interpolation call with unchanged
inputs on the already-updated driver reproduces the identical driver
state (bit-identical target values). -/
theorem C8_determinism :
    (∀ (src tgt : List Pt) (t1 t2 : NumericTolerances_t) (cv : Bool)
       (cs : CoordSysType),
       intersect_polys_r2d src tgt t1 cv cs =
         intersect_polys_r2d src tgt t2 cv cs) ∧
    (∀ (d : UberDriver) (k : Entity_kind) (fn : InterpolateFn)
       (sv tv : String) (w : List (List Weights_t)) (lb ub : ℚ)
       (pf : PartialFixupKind) (ef : EmptyFixupKind) (ct : ℚ) (mi : ℕ),
       sv ∈ d.source_vars_to_remap →
       ∃ d1 b,
         d.interpolate_mesh_var k fn sv tv w lb ub pf ef ct mi =
           Except.ok (d1, b) ∧
         d1.interpolate_mesh_var k fn sv tv w lb ub pf ef ct mi =
           Except.ok (d1, b)) := by
  constructor
  · intro src tgt t1 t2 cv cs
    rfl
  · intro d k fn sv tv w lb ub pf ef ct mi h
    refine ⟨_, _, interpolate_mesh_var_eq d k fn sv tv w lb ub pf ef ct mi h, ?_⟩
    have h2 : sv ∈ (UberDriver.withTargetField d tv
        (if d.do_check_mismatch && d.has_mismatch_flag k then
          fix_mismatch_values (w.map (fun ws => fn (d.source_state.values sv) ws))
            lb ub ct mi pf ef
        else w.map (fun ws => fn (d.source_state.values sv) ws))).source_vars_to_remap := h
    rw [interpolate_mesh_var_eq _ k fn sv tv w lb ub pf ef ct mi h2]
    simp only [withTargetField_do_check, withTargetField_flag,
      withTargetField_source_state, withTargetField_idem]

/-- C9: mismatch repair is never invoked without a detected mismatch:
`intersect_meshes` computes the per-kind mismatch flag exactly when
checking is enabled (and marks intersection completed), caching it for
the session; `interpolate_mesh_var` invokes `fix_mismatch` only when
mismatch checking is enabled and the cached flag is set for the entity
kind being interpolated, and never alters the cached flags. -/
theorem C9_mismatch_gating :
    (∀ (d : UberDriver) (k : Entity_kind) (w : List (List Weights_t)),
       (d.intersect_meshes k w).has_mismatch_flag k =
         (if d.do_check_mismatch then
           check_mismatch w (d.target_volumes k)
             d.num_tols.relative_conservation_eps
         else d.has_mismatch_flag k) ∧
       (d.intersect_meshes k w).mesh_intersection_completed k = true) ∧
    (∀ (d : UberDriver) (k : Entity_kind) (fn : InterpolateFn)
       (sv tv : String) (w : List (List Weights_t)) (lb ub : ℚ)
       (pf : PartialFixupKind) (ef : EmptyFixupKind) (ct : ℚ) (mi : ℕ)
       (d1 : UberDriver) (b : Bool),
       d.interpolate_mesh_var k fn sv tv w lb ub pf ef ct mi =
         Except.ok (d1, b) →
       (b = true → d.do_check_mismatch = true ∧
          d.has_mismatch_flag k = true) ∧
       d1.has_mismatch_flag = d.has_mismatch_flag) := by
  constructor
  · intro d k w
    constructor
    · by_cases h : d.do_check_mismatch <;>
        simp [UberDriver.intersect_meshes, updateKind, h]
    · simp [UberDriver.intersect_meshes, updateKind]
  · intro d k fn sv tv w lb ub pf ef ct mi d1 b heq
    by_cases h : sv ∈ d.source_vars_to_remap
    · rw [interpolate_mesh_var_eq d k fn sv tv w lb ub pf ef ct mi h] at heq
      simp only [Except.ok.injEq, Prod.mk.injEq] at heq
      obtain ⟨hd1, hb⟩ := heq
      constructor
      · intro hbt
        rw [← hb] at hbt
        exact ⟨(Bool.and_eq_true _ _).mp hbt |>.1,
          (Bool.and_eq_true _ _).mp hbt |>.2⟩
      · rw [← hd1]
        exact withTargetField_flag d tv _
    · unfold UberDriver.interpolate_mesh_var at heq
      rw [if_pos h] at heq
      exact absurd heq (by simp)

theorem C9_mismatch_gating_witness :
    ((false = true → wDriver.do_check_mismatch = true ∧
        wDriver.has_mismatch_flag Entity_kind.CELL = true) ∧
      wRunState.has_mismatch_flag = wDriver.has_mismatch_flag) :=
  C9_mismatch_gating.2 wDriver Entity_kind.CELL Interpolate_1stOrder "f" "g"
    wWeights 0 10 PartialFixupKind.ConstantFix EmptyFixupKind.LeaveEmpty 1 5
    wRunState false rfl

theorem getD_range_map (f : ℕ → ℚ) (i n : ℕ) (h : i < n) :
    ((List.range n).map f).getD i 0 = f i := by
  rw [List.getD_eq_getElem?_getD, List.getElem?_map, List.getElem?_range h]
  rfl

theorem foldl_first3 (om : Pt × Pt → List ℚ) (l : List (Pt × Pt)) :
    ∀ acc : List ℚ,
      List.foldl (fun a e => (List.range 6).map (fun j =>
          if j < 3 then a.getD j 0 + (om e).getD j 0 else a.getD j 0))
        ((List.range 6).map (fun j => if j < 3 then acc.getD j 0 else 0)) l =
      (List.range 6).map (fun j => if j < 3 then
        (List.foldl (fun a e => (List.range 6).map (fun j2 =>
          a.getD j2 0 + (om e).getD j2 0)) acc l).getD j 0 else 0) := by
  induction l with
  | nil => intro acc; rfl
  | cons e rest ih =>
    intro acc
    simp only [List.foldl_cons]
    have hstep :
        (List.range 6).map (fun j =>
          if j < 3 then
            ((List.range 6).map
              (fun j2 => if j2 < 3 then acc.getD j2 0 else 0)).getD j 0 +
              (om e).getD j 0
          else ((List.range 6).map
            (fun j2 => if j2 < 3 then acc.getD j2 0 else 0)).getD j 0) =
        (List.range 6).map (fun j => if j < 3 then
          ((List.range 6).map
            (fun j2 => acc.getD j2 0 + (om e).getD j2 0)).getD j 0 else 0) := by
      refine List.map_congr_left ?_
      intro j hj
      have hj6 : j < 6 := List.mem_range.mp hj
      rw [getD_range_map _ j 6 hj6, getD_range_map _ j 6 hj6]
      by_cases h3 : j < 3
      · rw [if_pos h3, if_pos h3, if_pos h3]
      · rw [if_neg h3, if_neg h3, if_neg h3]
    rw [hstep, ih]

theorem totalIntegral_cons (x y : ℚ) (xs ys : List ℚ) :
    totalIntegral (x :: xs) (y :: ys) = x * y + totalIntegral xs ys := by
  simp [totalIntegral]

theorem totalIntegral_replicate (c : ℚ) (vols : List ℚ) :
    totalIntegral (List.replicate vols.length c) vols = c * vols.sum := by
  induction vols with
  | nil => simp [totalIntegral]
  | cons v vs ih =>
    simp only [List.length_cons, List.replicate_succ]
    rw [totalIntegral_cons, ih, List.sum_cons]
    ring

theorem sum_values_const (svals : List ℚ) (c : ℚ) (ws : List Weights_t)
    (h : ∀ w ∈ ws, svals.getD w.entityID 0 = c) :
    (ws.map (fun w => svals.getD w.entityID 0 * w.weights.getD 0 0)).sum =
      c * m0sum ws := by
  induction ws with
  | nil => simp [m0sum]
  | cons a l ih =>
    have ha := h a (List.mem_cons_self a l)
    have hl : ∀ w ∈ l, svals.getD w.entityID 0 = c :=
      fun w hw => h w (List.mem_cons_of_mem a hw)
    simp only [List.map_cons, List.sum_cons, m0sum] at *
    rw [ha, ih hl]
    ring

theorem interp_const (svals : List ℚ) (c : ℚ) (ws : List Weights_t)
    (h : ∀ w ∈ ws, svals.getD w.entityID 0 = c) (hne : m0sum ws ≠ 0) :
    Interpolate_1stOrder svals ws = c := by
  unfold Interpolate_1stOrder
  rw [sum_values_const svals c ws h]
  show c * m0sum ws / m0sum ws = c
  rw [mul_div_assoc, div_self hne, mul_one]

theorem conservation_aux (svals : List ℚ) (c : ℚ) :
    ∀ (weights : List (List Weights_t)) (tvols : List ℚ),
      weights.length = tvols.length →
      (∀ p ∈ weights.zip tvols, m0sum p.1 = p.2) →
      (∀ ws ∈ weights, ∀ w ∈ ws, svals.getD w.entityID 0 = c) →
      totalIntegral (weights.map (Interpolate_1stOrder svals)) tvols =
        c * tvols.sum := by
  intro weights
  induction weights with
  | nil =>
    intro tvols hlen _ _
    have : tvols = [] := List.length_eq_zero.mp hlen.symm
    subst this
    simp [totalIntegral]
  | cons ws rest ih =>
    intro tvols hlen hcov hconst
    cases tvols with
    | nil => simp at hlen
    | cons t ts =>
      have hm : m0sum ws = t := hcov (ws, t) (by simp)
      have hrest : totalIntegral (rest.map (Interpolate_1stOrder svals)) ts =
          c * ts.sum := by
        refine ih ts ?_ ?_ ?_
        · simpa using hlen
        · intro p hp
          exact hcov p (by simp [hp])
        · intro ws2 h2 w hw
          exact hconst ws2 (List.mem_cons_of_mem _ h2) w hw
      rw [List.map_cons, totalIntegral_cons, hrest, List.sum_cons]
      by_cases h0 : m0sum ws = 0
      · have ht : t = 0 := hm.symm.trans h0
        subst ht
        ring
      · rw [interp_const svals c ws (hconst ws (List.mem_cons_self _ _)) h0]
        ring

/-- C7: for every target entity with contributing weights, the order-1
interpolated value is `Σ(value_i × m0_i) / Σ(m0_i)`; consequently a
constant source field `c` with zero detected mismatch (each target's
coverage equals its control volume and the domains match) is reproduced
exactly on every non-degenerate target entity, and
`Σ_target(value×volume)` equals `Σ_source(value×volume)` exactly (the
floating-point tolerance of the spec becomes exact equality over ℚ). -/
theorem C7_order1_conservation (svals : List ℚ) (c : ℚ)
    (weights : List (List Weights_t)) (tvols svols : List ℚ)
    (hconst : ∀ ws ∈ weights, ∀ w ∈ ws, svals.getD w.entityID 0 = c)
    (hlen : weights.length = tvols.length)
    (hcover : ∀ p ∈ weights.zip tvols, m0sum p.1 = p.2)
    (hdomain : tvols.sum = svols.sum) :
    (∀ ws ∈ weights, m0sum ws ≠ 0 → Interpolate_1stOrder svals ws = c) ∧
    totalIntegral (weights.map (Interpolate_1stOrder svals)) tvols =
      totalIntegral (List.replicate svols.length c) svols := by
  constructor
  · intro ws hws hne
    exact interp_const svals c ws (hconst ws hws) hne
  · rw [conservation_aux svals c weights tvols hlen hcover hconst,
      totalIntegral_replicate c svols, hdomain]

theorem C7_order1_conservation_witness :
    ((∀ ws ∈ wWeights, m0sum ws ≠ 0 →
        Interpolate_1stOrder [3, 3] ws = 3) ∧
      totalIntegral (wWeights.map (Interpolate_1stOrder [3, 3])) [1] =
        totalIntegral (List.replicate ([(1:ℚ)/2, 1/2].length) 3)
          [(1:ℚ)/2, 1/2]) :=
  C7_order1_conservation [3, 3] 3 wWeights [1] [1/2, 1/2]
    (by with_unfolding_all decide) (by decide)
    (by with_unfolding_all decide) (by with_unfolding_all decide)

/-- C2 counterexample: with both polygons equal to the unit square but
the target FLAGGED non-convex, under cylindrical axisymmetric
coordinates the returned vector is the raw order-≤1 accumulation
`[1, 1/2, 1/2, 0, 0, 0]`: its second-order entries are zero (although
the raw second-order intersection moments `1/3, 1/4, 1/3` are not) and
no shift is applied — unlike the convex-flagged path on the same
polygons, which returns the shifted vector `[1/2, 1/3, 1/4]`.  This
refutes the claim for non-convex-flagged targets. -/
theorem C2_counterexample :
    intersect_polys_r2d unitSquare unitSquare DEFAULT_NUMERIC_TOLERANCES false
        CoordSysType.CylindricalAxisymmetric ≠
      shift_moments_list (fanRawMomentsAxisym unitSquare unitSquare) ∧
    intersect_polys_r2d unitSquare unitSquare DEFAULT_NUMERIC_TOLERANCES false
        CoordSysType.CylindricalAxisymmetric = [1, 1/2, 1/2, 0, 0, 0] ∧
    fanRawMomentsAxisym unitSquare unitSquare =
      [1, 1/2, 1/2, 1/3, 1/4, 1/3] ∧
    intersect_polys_r2d unitSquare unitSquare DEFAULT_NUMERIC_TOLERANCES true
        CoordSysType.CylindricalAxisymmetric = [1/2, 1/3, 1/4] := by
  with_unfolding_all decide

/-- C2 amended: under cylindrical axisymmetric coordinates,
`intersect_polys_r2d` computes raw planar moments up to second order
and shifts them into revolved-volume moments only on the CONVEX-flagged
path; on the non-convex-flagged path the fan loop accumulates only the
first three moments of each clipped piece, so the second-order entries
of the returned (length 6) vector remain zero and no shift is
applied. -/
theorem C2_axisym_shift (S T : List Pt) (tols : NumericTolerances_t)
    (hS : S.length ≠ 0) (hT : T.length ≠ 0) :
    intersect_polys_r2d S T tols true CoordSysType.CylindricalAxisymmetric =
      shift_moments_list (r2d_reduce (r2d_clip S (facesFromVerts T)) 2) ∧
    intersect_polys_r2d S T tols false CoordSysType.CylindricalAxisymmetric =
      (List.range 6).map (fun j =>
        if j < 3 then (fanRawMomentsAxisym S T).getD j 0 else 0) := by
  have hdeg : ¬(S.length = 0 ∨ T.length = 0) := by
    rintro (h | h)
    · exact hS h
    · exact hT h
  constructor
  · unfold intersect_polys_r2d
    rw [if_neg hdeg]
    rfl
  · unfold intersect_polys_r2d fanRawMomentsAxisym
    rw [if_neg hdeg]
    have key := foldl_first3
      (fun e => r2d_reduce (r2d_clip S (facesFromVerts
        [(if centerPointOk (fanCentroid T) T then fanCentroid T
          else feasibleCentroid T 2), e.1, e.2])) 2)
      (cyclePairs T) (List.replicate 6 0)
    have hinit : ((List.range 6).map (fun j =>
        if j < 3 then (List.replicate 6 (0:ℚ)).getD j 0 else 0)) =
        List.replicate 6 0 := by with_unfolding_all decide
    rw [hinit] at key
    exact key

theorem C2_axisym_shift_witness :
    (intersect_polys_r2d unitSquare unitSquare DEFAULT_NUMERIC_TOLERANCES true
        CoordSysType.CylindricalAxisymmetric =
      shift_moments_list
        (r2d_reduce (r2d_clip unitSquare (facesFromVerts unitSquare)) 2)) ∧
    intersect_polys_r2d unitSquare unitSquare DEFAULT_NUMERIC_TOLERANCES false
        CoordSysType.CylindricalAxisymmetric =
      (List.range 6).map (fun j =>
        if j < 3 then
          (fanRawMomentsAxisym unitSquare unitSquare).getD j 0
        else 0) :=
  C2_axisym_shift unitSquare unitSquare DEFAULT_NUMERIC_TOLERANCES
    (by decide) (by decide)

/-- C1: at the concrete source/target pair below — source the unit
square, target the non-convex `bracketPoly` with empty kernel — neither
the area-weighted fan centroid nor the feasible-region centroid passes
the fan-triangle orientation validation (the self-clipped feasible
region is in fact empty), yet `intersect_polys_r2d` raises no error and
returns the moment vector `[3/2, 19/24, 19/24]` computed from the
invalid fan triangulation.  The source lies entirely inside the target
(inside its bottom arm), so the exact intersection moments are those of
the source square, `[1, 1/2, 1/2]` — the returned vector is wrong.  The
`std::runtime_error` objects of intersect_polys_r2d.h:131,154 are
constructed WITHOUT `throw`, so the GeometryError the claim (and spec
§7) require never propagates. -/
theorem C1_invalid_center_returns_moments :
    centerPointOk (fanCentroid bracketPoly) bracketPoly = false ∧
    feasiblePoly bracketPoly = [] ∧
    centerPointOk (feasibleCentroid bracketPoly 1) bracketPoly = false ∧
    intersect_polys_r2d unitSquare bracketPoly DEFAULT_NUMERIC_TOLERANCES false
        CoordSysType.Cartesian = [3/2, 19/24, 19/24] ∧
    r2d_reduce unitSquare 1 = [1, 1/2, 1/2] ∧
    ([3/2, 19/24, 19/24] : List ℚ) ≠ [1, 1/2, 1/2] := by
  with_unfolding_all decide

theorem C8_determinism_witness :
    ∃ d1 b,
      wDriver.interpolate_mesh_var Entity_kind.CELL Interpolate_1stOrder
        "f" "g" wWeights 0 10 PartialFixupKind.ConstantFix
        EmptyFixupKind.LeaveEmpty 1 5 = Except.ok (d1, b) ∧
      d1.interpolate_mesh_var Entity_kind.CELL Interpolate_1stOrder
        "f" "g" wWeights 0 10 PartialFixupKind.ConstantFix
        EmptyFixupKind.LeaveEmpty 1 5 = Except.ok (d1, b) :=
  C8_determinism.2 wDriver Entity_kind.CELL Interpolate_1stOrder "f" "g"
    wWeights 0 10 PartialFixupKind.ConstantFix EmptyFixupKind.LeaveEmpty
    1 5 (by decide)

end Portage
